import Mathlib

/-!
Shallow embedding of `src/lib/oras.py` (uenv pull orchestration):
`find_oras`, `run_command_internal`, `error_message_from_stderr`, `run_command`
and `pull_uenv`, together with trace-level models of the external collaborators
(`terminal`, `progress`) that are part of the repository but whose sources are
not available here; those are modelled from the spec and marked as such.

The observable behaviour of a call is a pair: the list of `Event`s it performs
(child-process launches, file removals, progress-bar renders, stdout writes,
error prints) and an `Outcome` (normal return, fatal abort via
`terminal.error`, or a propagated Python exception).
-/

namespace Oras

/-- Decoded JSON values, the result of Python's `json.loads` on the discovery
stdout.  `json.loads` itself is Python standard library; the orchestrator only
consumes the decoded value. -/
inductive Json where
  | null
  | bool (b : Bool)
  | num (n : ℚ)
  | str (s : String)
  | arr (elems : List Json)
  | obj (fields : List (String × Json))

/-- Dictionary lookup on a decoded JSON object, last occurrence wins as in
Python's `dict` built by `json.loads`. -/
def lookupField (key : String) : List (String × Json) → Option Json
  | [] => none
  | (k, v) :: rest =>
    match lookupField key rest with
    | some v2 => some v2
    | none => if k = key then some v else none

/-- `json.loads(stdout)["manifests"]` followed by Python `len`/indexing use:
the value must be an object carrying a `manifests` list.  A missing key, a
non-object document or a non-list value all raise in Python and are collapsed
here to `none` (the exception path of `pull_uenv`). -/
def getManifests : Json → Option (List Json)
  | Json.obj fields =>
    match lookupField "manifests" fields with
    | some (Json.arr elems) => some elems
    | _ => none
  | _ => none

/-- `manifests[0]["digest"]`: the first manifest must be an object with a
string digest.  A missing key or non-object raises in Python; a non-string
digest is likewise collapsed to the exception path here. -/
def getDigest : Json → Option String
  | Json.obj fields =>
    match lookupField "digest" fields with
    | some (Json.str s) => some s
    | _ => none
  | _ => none

/-- Captured result of a finished child process: `communicate()` output. -/
structure ProcResult where
  exitCode : Int
  stdout : String
  stderr : String
deriving DecidableEq

/-- The `target` argument of `pull_uenv`: carries the expected total size in
bytes of the squashfs image (`target.size`). -/
structure Target where
  size : ℚ
deriving DecidableEq

/-- Environment of one `pull_uenv` call: everything the surrounding world
(registry, filesystem, terminal) decides.  `sqfsTicks` is the sequence of
observations made by the polling loop while the sqfs child is alive: on each
tick, `none` if `os.path.exists(sqfs_path)` is false, otherwise
`some size` with the current file size in bytes. -/
structure World where
  metaDirExists : Bool
  discoverResult : ProcResult
  discoverJson : Option Json
  metaPullResult : ProcResult
  sqfsExists : Bool
  sqfsTicks : List (Option ℚ)
  sqfsResult : ProcResult
  isTTY : Bool

/-- Python `needle in hay` prefix test helper: does `needle` start `hay`? -/
def listStartsWith : List Char → List Char → Bool
  | _, [] => true
  | [], _ :: _ => false
  | a :: as, b :: bs => a = b && listStartsWith as bs

/-- Python `needle in hay` on character lists: contiguous substring search. -/
def listContainsSub : List Char → List Char → Bool
  | [], needle => needle.isEmpty
  | a :: t, needle => listStartsWith (a :: t) needle || listContainsSub t needle

/-- Python's `needle in hay` on strings: substring containment. -/
def strContains (hay needle : String) : Bool :=
  listContainsSub hay.data needle.data

/-- Python `s.rsplit(":", 1)` helper: split a character list at the LAST
occurrence of `:`, returning the parts before and after it, or `none` when no
`:` occurs. -/
def rsplitLastAux : List Char → Option (List Char × List Char)
  | [] => none
  | c :: cs =>
    match rsplitLastAux cs with
    | some (b, a) => some (c :: b, a)
    | none => if c = ':' then some ([], cs) else none

/-- Python `s.rsplit(":", 1)`: two parts when the string contains a `:`,
otherwise the whole string as a single part. -/
def rsplitColon (s : String) : List String :=
  match rsplitLastAux s.data with
  | some (b, a) => [String.mk b, String.mk a]
  | none => [s]

/-- Python `int()` on a rational: truncation toward zero (`Int.div` of the
reduced numerator by the positive denominator truncates toward zero). -/
def pyInt (q : ℚ) : Int := q.num / q.den

/-- Modelled from the spec: `terminal.colorize` is one of the excluded
"low-level terminal color/formatting helpers"; its coloring wrapper is
irrelevant to every property here, so it is modelled as returning its text. -/
def colorize (text color : String) : String := text

/-- One observable action of a `pull_uenv` call.  `info` is verbose logging
(`terminal.info`), `progress` is one rendered progress line
(modelled from the spec: `progress.progress_bar` "consumes a fraction-complete
value and a label, produces one line of output"), `stdoutLine` is
`terminal.stdout`, `errorLine` is the diagnostic printed by `terminal.error`,
`terminateChild` is `proc.terminate()`. -/
inductive Event where
  | launch (args : List String)
  | rmtree (path : String)
  | rmfile (path : String)
  | info (msg : String)
  | progress (fraction : ℚ) (msg : String)
  | stdoutLine (msg : String)
  | errorLine (msg : String)
  | terminateChild
deriving DecidableEq

/-- How a `pull_uenv` call ends.  Modelled from the spec: `terminal.error`
reports the diagnostic and aborts the call ("fatal, immediate abort"; its
`SystemExit` is not caught by the `except Exception` handlers), giving
`fatal`.  `raised` is a Python exception propagating out of the function. -/
inductive Outcome where
  | ok
  | fatal (msg : String)
  | raised (msg : String)
deriving DecidableEq

/-- The permission-denied signature scanned for in stderr. -/
def permission_trigger : String := "client does not have permission for manifest"

/-- The fixed remediation hint attached on a permission-denied signature. -/
def permission_hint : String :=
  colorize "Hint" "yellow" ++ " check that you have permissions to pull from the target JFrog registry, or contact CSCS Service Desk with the full command and output (preferrably also with the --verbose flag)."

/-- `error_message_from_stderr` from `src/lib/oras.py`: a fixed hint when the
permission signature occurs in stderr, the empty string otherwise. -/
def error_message_from_stderr (stderr : String) : String :=
  if strContains stderr permission_trigger then permission_hint else ""

/-- The diagnostic of `run_command` on a nonzero exit
(`oras command failed: {stderr}\n{msg}`). -/
def oras_command_failure_message (stderr : String) : String :=
  "oras command failed: " ++ stderr ++ "\n" ++ error_message_from_stderr stderr

/-- The diagnostic of `pull_uenv` when the sqfs pull exits nonzero
(`image pull failed: {stderr}\n{msg}`). -/
def image_pull_failure_message (stderr : String) : String :=
  "image pull failed: " ++ stderr ++ "\n" ++ error_message_from_stderr stderr

/-- The diagnostic of `pull_uenv` when the discovery child exits nonzero
(`failed to find meta data: {stderr}\n{msg}`). -/
def discovery_failure_message (stderr : String) : String :=
  "failed to find meta data: " ++ stderr ++ "\n" ++ error_message_from_stderr stderr

/-- The diagnostic of `pull_uenv`'s `except Exception` handler
(`image pull failed with unknown exception: {e}`); the Python rendering of the
exception object is abstracted to a description string. -/
def unknown_exception_message (e : String) : String :=
  "image pull failed with unknown exception: " ++ e

/-- The message reported on `KeyboardInterrupt` (`image pull cancelled by user.`). -/
def cancel_message : String := "image pull cancelled by user."

/-- Events of `pull_uenv`'s `except Exception` handler: `proc.terminate()`,
`terminal.stdout("")`, then the `terminal.error` diagnostic (which aborts). -/
def exn_handler_events (e : String) : List Event :=
  [Event.terminateChild, Event.stdoutLine "", Event.errorLine (unknown_exception_message e)]

/-- Environment for locating and spawning the external oras client:
`bundled` is the libexec `uenv-oras` path when that file exists, `onPath` is
`shutil.which("oras")`, `spawnOk` says whether the OS spawns the process,
`spawnErr` the text of the OS exception otherwise.  Path probing itself is
filesystem work outside this layer. -/
structure OrasEnv where
  bundled : Option String
  onPath : Option String
  spawnOk : Bool
  spawnErr : String

/-- A successfully spawned child process handle (`subprocess.Popen` result),
recording the spawned command line. -/
structure ProcHandle where
  command : List String
deriving DecidableEq

/-- `find_oras` from `src/lib/oras.py`: prefer the bundled libexec
`uenv-oras`, fall back to `shutil.which("oras")`; when neither exists,
`terminal.error` aborts (modelled from the spec: fatal, immediate abort). -/
def find_oras (env : OrasEnv) : Except String String :=
  match env.bundled with
  | some p => Except.ok p
  | none =>
    match env.onPath with
    | some p => Except.ok p
    | none => Except.error "no oras executable found"

/-- `run_command_internal` from `src/lib/oras.py`: locate the client and
spawn it with the given arguments.  The abort raised inside `find_oras` is a
`SystemExit`, which the `except Exception` clause does not catch, so it
propagates; an OS spawn failure is caught and reported via `terminal.error`
(modelled from the spec: fatal, immediate abort). -/
def run_command_internal (env : OrasEnv) (args : List String) : Except String ProcHandle :=
  match find_oras env with
  | Except.error e => Except.error e
  | Except.ok oras =>
    if env.spawnOk then
      Except.ok ⟨oras :: args⟩
    else
      Except.error ("an unknown error occured with the oras client: " ++ env.spawnErr)

/-- `run_command` from `src/lib/oras.py` on a completed child (the
non-interrupted path): exit code 0 logs success, a nonzero exit reports the
classified failure via `terminal.error`. -/
def run_command (res : ProcResult) : List Event × Outcome :=
  if res.exitCode = 0 then
    ([Event.info ("oras command successful: " ++ res.stdout)], Outcome.ok)
  else
    ([Event.errorLine (oras_command_failure_message res.stderr)],
     Outcome.fatal (oras_command_failure_message res.stderr))

/-- One tick of the progress-monitoring loop of `pull_uenv` (lines 116-123 of
`src/lib/oras.py`): while the sqfs child is alive, if the watched file exists
and stdout is a terminal, compute `p = (size/(1024*1024)) / (total.size/(1024*1024))`
and render one progress line.  `totalMb` is the precomputed
`target.size/(1024*1024)`.  A zero `totalMb` makes the Python division raise
`ZeroDivisionError`, modelled as `Except.error`. -/
def render_tick (isTTY : Bool) (totalMb : ℚ) (obs : Option ℚ) : Except Unit (List Event) :=
  match obs with
  | none => Except.ok []
  | some size =>
    if isTTY then
      if totalMb = 0 then Except.error ()
      else
        let currentMb := size / (1024 * 1024)
        let p := currentMb / totalMb
        let ci := pyInt currentMb
        let ti := pyInt totalMb
        Except.ok [Event.progress p (s!"{ci}/{ti} MB")]
    else Except.ok []

/-- The whole polling loop over the observations made while the sqfs child is
alive: the emitted events, and whether a tick raised (`ZeroDivisionError`),
which stops the loop. -/
def loopTicks (isTTY : Bool) (totalMb : ℚ) : List (Option ℚ) → List Event × Bool
  | [] => ([], false)
  | obs :: rest =>
    match render_tick isTTY totalMb obs with
    | Except.error _ => ([], true)
    | Except.ok evs =>
      let r := loopTicks isTTY totalMb rest
      (evs ++ r.1, r.2)

/-- The final 100-percent progress line rendered after a successful sqfs pull
(`progress.progress_bar(1.0, ..., msg=f"T/T MB")`, line 127). -/
def final_progress_event (target : Target) : Event :=
  Event.progress 1 (s!"{pyInt (target.size / (1024 * 1024))}/{pyInt (target.size / (1024 * 1024))} MB")

/-- The meta branch of `pull_uenv` (lines 78-102 of `src/lib/oras.py`):
remove a stale `meta` directory, run discovery, decode its stdout, take the
digest of the FIRST manifest, launch the meta pull and wait for it.  Returns
the emitted events and `some outcome` when the branch aborts the call.
Spawn always succeeds here (spawn failure is `run_command_internal`'s model);
the verbose logging done inside `run_command_internal` is elided.  Note the
meta pull's `communicate()` result (`w.metaPullResult`) is never examined:
the source does not check its return code. -/
def metaPhase (w : World) (source_address tag image_path : String) : List Event × Option Outcome :=
  let cleanup := if w.metaDirExists then [Event.rmtree (image_path ++ "/meta")] else []
  let ev0 := cleanup ++
    [Event.info "discovering meta data",
     Event.launch ["discover", "-o", "json", "--artifact-type", "uenv/meta",
                   source_address ++ ":" ++ tag]]
  if w.discoverResult.exitCode = 0 then
    let ev1 := ev0 ++ [Event.info ("successfully downloaded meta data info: " ++ w.discoverResult.stdout)]
    match w.discoverJson with
    | none => (ev1 ++ exn_handler_events "discovery output is not valid JSON",
               some (Outcome.fatal (unknown_exception_message "discovery output is not valid JSON")))
    | some j =>
      match getManifests j with
      | none => (ev1 ++ exn_handler_events "decoded discovery output has no manifest list",
                 some (Outcome.fatal (unknown_exception_message "decoded discovery output has no manifest list")))
      | some [] =>
        (ev1 ++ [Event.errorLine "no meta data is available"],
         some (Outcome.fatal "no meta data is available"))
      | some (m :: _) =>
        match getDigest m with
        | none => (ev1 ++ exn_handler_events "first manifest carries no digest string",
                   some (Outcome.fatal (unknown_exception_message "first manifest carries no digest string")))
        | some digest =>
          (ev1 ++ [Event.info ("meta data digest: " ++ digest),
                   Event.launch ["pull", "-o", image_path, source_address ++ "@" ++ digest]],
           none)
  else
    (ev0 ++ [Event.errorLine (discovery_failure_message w.discoverResult.stderr)],
     some (Outcome.fatal (discovery_failure_message w.discoverResult.stderr)))

/-- The sqfs branch of `pull_uenv` (lines 104-132 of `src/lib/oras.py`):
remove a stale `store.squashfs`, launch the sqfs pull, poll-and-render while
it runs, then classify its exit.  On exit code 0 a final 100-percent line, an
empty stdout line and a success log are emitted unconditionally; otherwise
`terminal.error` reports the classified failure and aborts. -/
def sqfsPhase (w : World) (source_address tag image_path : String) (target : Target) : List Event × Option Outcome :=
  let sqfs_path := image_path ++ "/store.squashfs"
  let cleanup := if w.sqfsExists then [Event.rmfile sqfs_path] else []
  let ev0 := cleanup ++ [Event.launch ["pull", "-o", image_path, source_address ++ ":" ++ tag]]
  let totalMb := target.size / (1024 * 1024)
  let ticks := loopTicks w.isTTY totalMb w.sqfsTicks
  let ev1 := ev0 ++ ticks.1
  if ticks.2 then
    (ev1 ++ exn_handler_events "division by zero",
     some (Outcome.fatal (unknown_exception_message "division by zero")))
  else if w.sqfsResult.exitCode = 0 then
    (ev1 ++ [final_progress_event target,
             Event.stdoutLine "",
             Event.info ("oras command successful: " ++ w.sqfsResult.stdout)],
     none)
  else
    (ev1 ++ [Event.errorLine (image_pull_failure_message w.sqfsResult.stderr)],
     some (Outcome.fatal (image_pull_failure_message w.sqfsResult.stderr)))

/-- The body of `pull_uenv` after the address has been split into base and
tag: the meta branch (when `pull_meta`), then, unless it aborted, the sqfs
branch (when `pull_sqfs`). -/
def pull_uenv_body (w : World) (source_address tag image_path : String) (target : Target)
    (pull_meta pull_sqfs : Bool) : List Event × Outcome :=
  let meta := if pull_meta then metaPhase w source_address tag image_path else ([], none)
  match meta.2 with
  | some o => (meta.1, o)
  | none =>
    let sqfs := if pull_sqfs then sqfsPhase w source_address tag image_path target else ([], none)
    match sqfs.2 with
    | some o => (meta.1 ++ sqfs.1, o)
    | none => (meta.1 ++ sqfs.1, Outcome.ok)

/-- `pull_uenv` from `src/lib/oras.py`.  `source_address.rsplit(":", 1)`
yields two parts when the address contains a `:`; otherwise `terms[1]` raises
`IndexError`, whose `except Exception` handler immediately raises
`UnboundLocalError` on `proc.terminate()` (`proc` was never assigned), which
propagates out of the function before any event is performed. -/
def pull_uenv (w : World) (source_address image_path : String) (target : Target)
    (pull_meta pull_sqfs : Bool) : List Event × Outcome :=
  match rsplitColon source_address with
  | [base, tag] => pull_uenv_body w base tag image_path target pull_meta pull_sqfs
  | _ => ([], Outcome.raised "UnboundLocalError")

/-- State of a child-process handle.  Modelled from the spec (ProcessHandle
contract): `poll() -> Running|Exited(exit_code)` and `terminate()` sends a
termination signal (idempotent, safe after exit); a terminated running child
reaches the exited state with the SIGTERM status. -/
inductive ProcStatus where
  | running
  | exited (code : Int)
deriving DecidableEq

/-- Modelled from the spec: non-blocking `poll()`; `none` means still
running, `some code` means exited. -/
def ProcStatus.poll : ProcStatus → Option Int
  | ProcStatus.running => none
  | ProcStatus.exited c => some c

/-- Modelled from the spec: idempotent `terminate()`. -/
def ProcStatus.terminate : ProcStatus → ProcStatus
  | ProcStatus.running => ProcStatus.exited (-15)
  | ProcStatus.exited c => ProcStatus.exited c

/-- The `except KeyboardInterrupt` handler of `pull_uenv` (lines 134-137):
`proc.terminate()`, `terminal.stdout("")` (closing any open progress line),
then `terminal.error("image pull cancelled by user.")`, which reports the
cancellation and aborts.  Returns the final handle state together with the
events and the outcome of the call. -/
def keyboard_interrupt_handler (proc : ProcStatus) : ProcStatus × (List Event × Outcome) :=
  (proc.terminate,
   ([Event.terminateChild, Event.stdoutLine "", Event.errorLine cancel_message],
    Outcome.fatal cancel_message))

/-- Does this event launch a `pull` sub-operation of the oras client? -/
def isPullLaunch : Event → Bool
  | Event.launch args => args.head? = some "pull"
  | _ => false

/-- Number of `pull` sub-operations launched in a trace. -/
def countPullLaunches (evs : List Event) : ℕ :=
  (evs.filter isPullLaunch).length

/-- Is this event a rendered progress line? -/
def isProgress : Event → Bool
  | Event.progress _ _ => true
  | _ => false

/-- The progress lines of a trace, in order. -/
def progressEvents (evs : List Event) : List Event :=
  evs.filter isProgress

/-- `w` with the meta pull's `communicate()` result replaced: used to state
that `pull_uenv` never examines that result. -/
def updateMetaPull (w : World) (r : ProcResult) : World :=
  ⟨w.metaDirExists, w.discoverResult, w.discoverJson, r,
   w.sqfsExists, w.sqfsTicks, w.sqfsResult, w.isTTY⟩

/-- A quiet environment: every child succeeds, nothing pre-exists, stdout is
not a terminal. -/
def plain_world : World :=
  ⟨false, ⟨0, "", ""⟩, none, ⟨0, "", ""⟩, false, [], ⟨0, "", ""⟩, false⟩

/-- The decoded form of the discovery stdout of the spec's end-to-end
scenario: a manifests list of two records whose digests are `sha256:abc` and
`sha256:def`, in that order. -/
def c1_example_json : Json :=
  Json.obj [("manifests", Json.arr [Json.obj [("digest", Json.str "sha256:abc")],
                                    Json.obj [("digest", Json.str "sha256:def")]])]

/-- Environment for the two-manifest discovery scenario. -/
def c1_world : World :=
  ⟨false, ⟨0, "discovery output", ""⟩, some c1_example_json,
   ⟨0, "", ""⟩, false, [], ⟨0, "", ""⟩, false⟩

/-- Environment whose discovery succeeds with an empty manifest list. -/
def c2_world : World :=
  ⟨false, ⟨0, "empty manifest list", ""⟩, some (Json.obj [("manifests", Json.arr [])]),
   ⟨0, "", ""⟩, false, [], ⟨0, "", ""⟩, false⟩

/-- Environment whose meta pull exits 1 while everything else succeeds. -/
def c3_world : World :=
  ⟨false, ⟨0, "disc", ""⟩,
   some (Json.obj [("manifests", Json.arr [Json.obj [("digest", Json.str "sha256:aaa")]])]),
   ⟨1, "", "meta pull exploded"⟩, false, [], ⟨0, "", ""⟩, false⟩

/-- Environment whose sqfs pull exits 1 with stderr `boom`. -/
def c3w_world : World :=
  ⟨false, ⟨0, "", ""⟩, none, ⟨0, "", ""⟩, false, [], ⟨1, "", "boom"⟩, false⟩

/-- Non-interactive environment: one tick observes a half-written file, then
the sqfs pull exits 0. -/
def c5_world : World :=
  ⟨false, ⟨0, "", ""⟩, none, ⟨0, "", ""⟩, false, [some 524288], ⟨0, "sqfs done", ""⟩, false⟩

/-- A list without a colon has no last-colon split. -/
theorem rsplitLastAux_eq_none {l : List Char} (h : ':' ∉ l) : rsplitLastAux l = none := by
  induction l with
  | nil => rfl
  | cons c cs ih =>
    have hc : c ≠ ':' := fun hc => h (hc ▸ List.mem_cons_self c cs)
    have hcs : ':' ∉ cs := fun hm => h (List.mem_cons_of_mem c hm)
    simp [rsplitLastAux, ih hcs, hc]

/-- Splitting at the last colon of `base ++ ":" ++ tag` recovers `base` and
`tag` whenever `tag` itself has no colon, whatever colons `base` contains. -/
theorem rsplitLastAux_append {tag : List Char} (h : ':' ∉ tag) (base : List Char) :
    rsplitLastAux (base ++ ':' :: tag) = some (base, tag) := by
  induction base with
  | nil => simp [rsplitLastAux, rsplitLastAux_eq_none h]
  | cons c cs ih => simp [rsplitLastAux, ih]

/-- A list containing a colon always has a last-colon split. -/
theorem rsplitLastAux_isSome {l : List Char} (h : ':' ∈ l) :
    ∃ p : List Char × List Char, rsplitLastAux l = some p := by
  induction l with
  | nil => cases h
  | cons c cs ih =>
    by_cases hcs : ':' ∈ cs
    · obtain ⟨⟨b, a⟩, hp⟩ := ih hcs
      exact ⟨(c :: b, a), by simp [rsplitLastAux, hp]⟩
    · have hc : c = ':' := by
        rcases List.mem_cons.mp h with h1 | h2
        · exact h1.symm
        · exact absurd h2 hcs
      exact ⟨([], cs), by simp [rsplitLastAux, rsplitLastAux_eq_none hcs, hc]⟩

/-- `rsplit(":", 1)` on `base:tag` recovers `base` and `tag`. -/
theorem rsplitColon_append (base tag : String) (h : ':' ∉ tag.data) :
    rsplitColon (base ++ ":" ++ tag) = [base, tag] := by
  unfold rsplitColon
  have hd : (base ++ ":" ++ tag).data = base.data ++ ':' :: tag.data := by
    simp [String.data_append]
  rw [hd, rsplitLastAux_append h]

/-- `rsplit(":", 1)` on a colon-free string returns the whole string. -/
theorem rsplitColon_no_colon {s : String} (h : ':' ∉ s.data) : rsplitColon s = [s] := by
  unfold rsplitColon
  rw [rsplitLastAux_eq_none h]

/-- With a non-interactive stdout, no loop tick renders anything and no tick
can raise, whatever sizes are observed and whatever the expected total is. -/
theorem loopTicks_not_tty (totalMb : ℚ) (ticks : List (Option ℚ)) :
    loopTicks false totalMb ticks = ([], false) := by
  induction ticks with
  | nil => rfl
  | cons obs rest ih => cases obs <;> simp [loopTicks, render_tick, ih]

/-- Every list starts with itself, padding ignored. -/
theorem listStartsWith_append (y z : List Char) : listStartsWith (y ++ z) y = true := by
  induction y with
  | nil => cases z <;> rfl
  | cons a as ih => simp [listStartsWith, ih]

/-- Substring search succeeds on a leading match. -/
theorem listContainsSub_of_startsWith {l y : List Char} (h : listStartsWith l y = true) :
    listContainsSub l y = true := by
  cases l with
  | nil =>
    cases y with
    | nil => rfl
    | cons b bs => simp [listStartsWith] at h
  | cons a t => simp [listContainsSub, h]

/-- Substring search is stable under prepending. -/
theorem listContainsSub_append_left (x : List Char) {l y : List Char}
    (h : listContainsSub l y = true) : listContainsSub (x ++ l) y = true := by
  induction x with
  | nil => exact h
  | cons a t ih => simp [listContainsSub, ih]

/-- A string whose character data splits around the needle's data contains
the needle. -/
theorem strContains_of_data {hay needle : String} (pre post : List Char)
    (h : hay.data = pre ++ needle.data ++ post) : strContains hay needle = true := by
  unfold strContains
  rw [h, List.append_assoc]
  exact listContainsSub_append_left pre
    (listContainsSub_of_startsWith (listStartsWith_append _ _))

/-- Two strings differing on a data prefix differ. -/
theorem string_ne_of_take (t u : String) (n : ℕ) (h : t.data.take n ≠ u.data.take n) :
    t ≠ u :=
  fun he => h (by rw [he])

/-- The data prefix of a four-part concatenation is the first part. -/
theorem take_data_append4 (p s t u : String) :
    (p ++ s ++ t ++ u).data.take p.data.length = p.data := by
  have hd : (p ++ s ++ t ++ u).data = p.data ++ (s.data ++ (t.data ++ u.data)) := by
    simp [String.data_append]
  rw [hd]
  exact List.take_left _ _

/-- The data prefix of a two-part concatenation is the first part. -/
theorem take_data_append2 (p s : String) :
    (p ++ s).data.take p.data.length = p.data := by
  rw [String.data_append]
  exact List.take_left _ _

/-- The sqfs transfer-failure diagnostic is never the cancellation message. -/
theorem image_pull_msg_ne_cancel (s : String) :
    image_pull_failure_message s ≠ cancel_message := by
  apply string_ne_of_take _ _ ("image pull failed: ".data.length)
  rw [show image_pull_failure_message s
        = "image pull failed: " ++ s ++ "\n" ++ error_message_from_stderr s from rfl,
      take_data_append4]
  decide

/-- The discovery-failure diagnostic is never the cancellation message. -/
theorem discovery_msg_ne_cancel (s : String) :
    discovery_failure_message s ≠ cancel_message := by
  apply string_ne_of_take _ _ ("failed to find meta data: ".data.length)
  rw [show discovery_failure_message s
        = "failed to find meta data: " ++ s ++ "\n" ++ error_message_from_stderr s from rfl,
      take_data_append4]
  decide

/-- The unknown-exception diagnostic is never the cancellation message. -/
theorem unknown_exn_msg_ne_cancel (s : String) :
    unknown_exception_message s ≠ cancel_message := by
  apply string_ne_of_take _ _ ("image pull failed with unknown exception: ".data.length)
  rw [show unknown_exception_message s
        = "image pull failed with unknown exception: " ++ s from rfl,
      take_data_append2]
  decide

/-- C1: whenever the discovery child exits 0 and its decoded stdout carries a
non-empty manifest list whose first record has digest `d`, the meta pull is
launched against `base@d`, whatever the later manifest records contain. -/
theorem c1_first_manifest_digest_selected
    (w : World) (addr base tag image_path : String) (target : Target) (ps : Bool)
    (j m : Json) (rest : List Json) (d : String)
    (hsplit : rsplitColon addr = [base, tag])
    (hexit : w.discoverResult.exitCode = 0)
    (hjson : w.discoverJson = some j)
    (hman : getManifests j = some (m :: rest))
    (hdig : getDigest m = some d) :
    Event.launch ["pull", "-o", image_path, base ++ "@" ++ d]
      ∈ (pull_uenv w addr image_path target true ps).1 := by
  unfold pull_uenv
  rw [hsplit]
  unfold pull_uenv_body metaPhase
  simp only [hexit, hjson, hman, hdig, if_pos, if_true]
  rcases hq : (if ps then sqfsPhase w base tag image_path target else ([], none)).2 with _ | o <;>
    simp [hq, List.mem_append]

/-- C1 witness: on the spec's two-manifest scenario the selected digest is
`sha256:abc`, the first of the list. -/
theorem c1_witness :
    Event.launch ["pull", "-o", "/img", "registry/path" ++ "@" ++ "sha256:abc"]
      ∈ (pull_uenv c1_world "registry/path:v1" "/img" ⟨1048576⟩ true false).1 :=
  c1_first_manifest_digest_selected c1_world "registry/path:v1" "registry/path" "v1" "/img"
    ⟨1048576⟩ false c1_example_json (Json.obj [("digest", Json.str "sha256:abc")])
    [Json.obj [("digest", Json.str "sha256:def")]] "sha256:abc"
    rfl rfl rfl rfl rfl

/-- C2: whenever the discovery child exits 0 and its decoded manifest list is
empty, the call aborts with the discovery diagnostic `no meta data is
available` and no `pull` sub-operation is ever launched, whether or not the
sqfs component was requested. -/
theorem c2_empty_manifest_list_aborts
    (w : World) (addr base tag image_path : String) (target : Target) (ps : Bool)
    (j : Json)
    (hsplit : rsplitColon addr = [base, tag])
    (hexit : w.discoverResult.exitCode = 0)
    (hjson : w.discoverJson = some j)
    (hman : getManifests j = some []) :
    (pull_uenv w addr image_path target true ps).2 = Outcome.fatal "no meta data is available"
    ∧ countPullLaunches (pull_uenv w addr image_path target true ps).1 = 0 := by
  unfold pull_uenv
  rw [hsplit]
  unfold pull_uenv_body metaPhase
  simp only [hexit, hjson, hman, if_true]
  cases hmd : w.metaDirExists <;>
    simp [hmd, countPullLaunches, isPullLaunch]

/-- C2 witness: a concrete empty-manifest-list discovery aborts the call with
the discovery diagnostic and with zero transfers launched. -/
theorem c2_witness :
    (pull_uenv c2_world "registry/app:v1" "/img" ⟨1048576⟩ true true).2
        = Outcome.fatal "no meta data is available"
    ∧ countPullLaunches (pull_uenv c2_world "registry/app:v1" "/img" ⟨1048576⟩ true true).1
        = 0 :=
  c2_empty_manifest_list_aborts c2_world "registry/app:v1" "registry/app" "v1" "/img"
    ⟨1048576⟩ true (Json.obj [("manifests", Json.arr [])]) rfl rfl rfl rfl

/-- C3 counterexample: the meta pull exits 1 (stderr `meta pull exploded`),
yet the call continues (a second `pull` sub-operation is launched for the
sqfs component) and returns normally with no failure reported — refuting the
claim that every nonzero transfer exit aborts further steps and surfaces
stderr. -/
theorem c3_counterexample :
    c3_world.metaPullResult.exitCode ≠ 0
    ∧ (pull_uenv c3_world "reg/app:v1" "/img" ⟨1048576⟩ true true).2 = Outcome.ok
    ∧ countPullLaunches (pull_uenv c3_world "reg/app:v1" "/img" ⟨1048576⟩ true true).1 = 2 := by
  decide

/-- C3 amended: the meta pull's captured result is never examined (replacing
it changes nothing observable), while a nonzero exit of the sqfs pull does
abort the call with a failure whose diagnostic contains the raw stderr text
verbatim. -/
theorem c3_amended
    (w : World) (r : ProcResult) (addr base tag image_path : String) (target : Target)
    (pm ps : Bool)
    (hsplit : rsplitColon addr = [base, tag])
    (hloop : (loopTicks w.isTTY (target.size / (1024 * 1024)) w.sqfsTicks).2 = false)
    (hne : w.sqfsResult.exitCode ≠ 0) :
    pull_uenv (updateMetaPull w r) addr image_path target pm ps
      = pull_uenv w addr image_path target pm ps
    ∧ (pull_uenv w addr image_path target false true).2
        = Outcome.fatal (image_pull_failure_message w.sqfsResult.stderr)
    ∧ strContains (image_pull_failure_message w.sqfsResult.stderr) w.sqfsResult.stderr
        = true := by
  refine ⟨rfl, ?_, ?_⟩
  · unfold pull_uenv
    rw [hsplit]
    unfold pull_uenv_body sqfsPhase
    simp [hloop, hne]
  · apply strContains_of_data ("image pull failed: ".data)
      (("\n" ++ error_message_from_stderr w.sqfsResult.stderr).data)
    simp [image_pull_failure_message, String.data_append]

/-- C3 amended witness: a concrete failing sqfs pull aborts with its stderr
`boom` inside the diagnostic, and replacing the meta pull result is
unobservable. -/
theorem c3_amended_witness :
    pull_uenv (updateMetaPull c3w_world ⟨9, "x", "y"⟩) "a:b" "/img" ⟨1048576⟩ false true
      = pull_uenv c3w_world "a:b" "/img" ⟨1048576⟩ false true
    ∧ (pull_uenv c3w_world "a:b" "/img" ⟨1048576⟩ false true).2
        = Outcome.fatal (image_pull_failure_message "boom")
    ∧ strContains (image_pull_failure_message "boom") "boom" = true :=
  c3_amended c3w_world ⟨9, "x", "y"⟩ "a:b" "a" "b" "/img" ⟨1048576⟩ false true rfl rfl
    (by decide)

/-- C4: the hint attached to a failure diagnostic is the fixed permission
hint exactly when stderr contains the permission signature (and then both
failure diagnostics contain the hint); for every other stderr the attached
hint is the empty string. -/
theorem c4_hint_iff_permission_signature (stderr : String) :
    (strContains stderr permission_trigger = true →
       error_message_from_stderr stderr = permission_hint
       ∧ strContains (image_pull_failure_message stderr) permission_hint = true
       ∧ strContains (oras_command_failure_message stderr) permission_hint = true)
    ∧ (strContains stderr permission_trigger = false →
       error_message_from_stderr stderr = "") := by
  constructor
  · intro h
    refine ⟨by simp [error_message_from_stderr, h], ?_, ?_⟩
    · apply strContains_of_data ("image pull failed: ".data ++ stderr.data ++ "\n".data) []
      simp [image_pull_failure_message, error_message_from_stderr, h, String.data_append]
    · apply strContains_of_data ("oras command failed: ".data ++ stderr.data ++ "\n".data) []
      simp [oras_command_failure_message, error_message_from_stderr, h, String.data_append]
  · intro h
    simp [error_message_from_stderr, h]

/-- C4 witness: a stderr with the permission signature gets the fixed hint,
a stderr without it gets the empty hint. -/
theorem c4_witness :
    error_message_from_stderr "ERROR: client does not have permission for manifest xyz"
      = permission_hint
    ∧ error_message_from_stderr "connection refused" = "" :=
  ⟨((c4_hint_iff_permission_signature
      "ERROR: client does not have permission for manifest xyz").1 (by decide)).1,
   (c4_hint_iff_permission_signature "connection refused").2 (by decide)⟩

/-- C5 counterexample: with a non-interactive stdout and a successful sqfs
pull, exactly one progress line is still emitted (the unconditional final
100-percent render of line 127), refuting the claim that zero progress lines
are emitted including the final render. -/
theorem c5_counterexample :
    c5_world.isTTY = false
    ∧ (progressEvents (pull_uenv c5_world "reg/app:v1" "/img" ⟨1048576⟩ false true).1).length
        = 1 := by
  decide

/-- C5 amended: with a non-interactive stdout no per-tick progress line is
ever rendered, whatever the observed sizes and the expected total; on a
failing exit the run emits no progress line at all, but after a successful
exit the single final 100-percent render is still emitted. -/
theorem c5_amended
    (w : World) (addr base tag image_path : String) (target : Target)
    (hsplit : rsplitColon addr = [base, tag])
    (htty : w.isTTY = false) :
    ((w.sqfsResult.exitCode ≠ 0 →
        progressEvents (pull_uenv w addr image_path target false true).1 = [])
    ∧ (w.sqfsResult.exitCode = 0 →
        progressEvents (pull_uenv w addr image_path target false true).1
          = [final_progress_event target])) := by
  unfold pull_uenv
  rw [hsplit]
  unfold pull_uenv_body sqfsPhase
  simp only [htty, loopTicks_not_tty]
  constructor
  · intro hne
    cases hex : w.sqfsExists <;> simp [hex, hne, progressEvents, isProgress]
  · intro he
    cases hex : w.sqfsExists <;>
      simp [hex, he, progressEvents, isProgress, final_progress_event]

/-- C5 amended witness: a concrete non-interactive successful run renders
exactly the final 100-percent line and nothing from its tick. -/
theorem c5_amended_witness :
    progressEvents (pull_uenv c5_world "reg/app:v1" "/img" ⟨1048576⟩ false true).1
      = [final_progress_event ⟨1048576⟩] :=
  (c5_amended c5_world "reg/app:v1" "reg/app" "v1" "/img" ⟨1048576⟩ rfl rfl).2 rfl

/-- C6: on a tick that renders (file exists with size S, interactive
terminal), the fraction handed to the progress renderer is exactly S/T for
expected total T, with no clamping: whenever S exceeds T that fraction
exceeds 1. -/
theorem c6_fraction_unclamped (S T : ℚ) (hT : 0 < T) :
    render_tick true (T / (1024 * 1024)) (some S)
      = Except.ok [Event.progress (S / T)
          (s!"{pyInt (S / (1024 * 1024))}/{pyInt (T / (1024 * 1024))} MB")]
    ∧ (T < S → 1 < S / T) := by
  constructor
  · have h1 : T ≠ 0 := ne_of_gt hT
    have hne : T / (1024 * 1024) ≠ 0 := div_ne_zero h1 (by norm_num)
    have hp : S / (1024 * 1024) / (T / (1024 * 1024)) = S / T := by
      field_simp
    simp [render_tick, hne, hp]
  · intro hlt
    exact (one_lt_div hT).mpr hlt

/-- C6 witness: a 2 MiB observation against a 1 MiB expected total renders
fraction 2097152/1048576, which exceeds 1. -/
theorem c6_witness :
    render_tick true ((1048576 : ℚ) / (1024 * 1024)) (some 2097152)
      = Except.ok [Event.progress ((2097152 : ℚ) / 1048576)
          (s!"{pyInt ((2097152 : ℚ) / (1024 * 1024))}/{pyInt ((1048576 : ℚ) / (1024 * 1024))} MB")]
    ∧ 1 < (2097152 : ℚ) / 1048576 :=
  ⟨(c6_fraction_unclamped 2097152 1048576 (by norm_num)).1,
   (c6_fraction_unclamped 2097152 1048576 (by norm_num)).2 (by norm_num)⟩

/-- C7: the interrupt handler terminates the child (its handle polls as
exited afterwards, for every prior handle state), emits the trailing newline
after the terminate and before the error report, which closes the call with
the fixed `image pull cancelled by user.` failure — a message distinct from
every transfer-failure, discovery-failure, unknown-exception and
empty-manifest diagnostic. -/
theorem c7_cancellation (proc : ProcStatus) :
    (keyboard_interrupt_handler proc).1.poll ≠ none
    ∧ (keyboard_interrupt_handler proc).2.1
        = [Event.terminateChild, Event.stdoutLine "", Event.errorLine cancel_message]
    ∧ (keyboard_interrupt_handler proc).2.2 = Outcome.fatal cancel_message
    ∧ (∀ s, Outcome.fatal (image_pull_failure_message s) ≠ Outcome.fatal cancel_message)
    ∧ (∀ s, Outcome.fatal (discovery_failure_message s) ≠ Outcome.fatal cancel_message)
    ∧ (∀ s, Outcome.fatal (unknown_exception_message s) ≠ Outcome.fatal cancel_message)
    ∧ Outcome.fatal "no meta data is available" ≠ Outcome.fatal cancel_message := by
  refine ⟨?_, rfl, rfl, ?_, ?_, ?_, ?_⟩
  · cases proc <;> simp [keyboard_interrupt_handler, ProcStatus.terminate, ProcStatus.poll]
  · intro s h
    exact image_pull_msg_ne_cancel s (Outcome.fatal.inj h)
  · intro s h
    exact discovery_msg_ne_cancel s (Outcome.fatal.inj h)
  · intro s h
    exact unknown_exn_msg_ne_cancel s (Outcome.fatal.inj h)
  · intro h
    exact absurd (Outcome.fatal.inj h) (by decide)

/-- C7 witness: interrupting while the child runs leaves a handle that polls
as exited and reports the cancellation failure. -/
theorem c7_witness :
    (keyboard_interrupt_handler ProcStatus.running).1.poll ≠ none
    ∧ (keyboard_interrupt_handler ProcStatus.running).2.2 = Outcome.fatal cancel_message :=
  ⟨(c7_cancellation ProcStatus.running).1, (c7_cancellation ProcStatus.running).2.2.1⟩

/-- C8: splitting `base:tag` at the last colon recovers exactly `base` and
`tag` even when `base` contains colons (for any colon-free tag), and a
colon-free address makes the call fail with an empty trace — in particular no
child process is ever launched for it. -/
theorem c8_address_split
    (base tag : String) (h : ':' ∉ tag.data)
    (w : World) (addr image_path : String) (target : Target) (pm ps : Bool)
    (h2 : ':' ∉ addr.data) :
    rsplitColon (base ++ ":" ++ tag) = [base, tag]
    ∧ pull_uenv w addr image_path target pm ps = ([], Outcome.raised "UnboundLocalError") := by
  constructor
  · exact rsplitColon_append base tag h
  · unfold pull_uenv
    rw [rsplitColon_no_colon h2]

/-- C8 witness: a base containing a colon splits correctly, and the address
`nocolon` is rejected with nothing launched. -/
theorem c8_witness :
    rsplitColon ("jfrog.ch/uenv:app" ++ ":" ++ "v1") = ["jfrog.ch/uenv:app", "v1"]
    ∧ pull_uenv plain_world "nocolon" "/img" ⟨1⟩ true true
        = ([], Outcome.raised "UnboundLocalError") :=
  c8_address_split "jfrog.ch/uenv:app" "v1" (by decide) plain_world "nocolon" "/img" ⟨1⟩
    true true (by decide)

/-- C9: when no oras executable can be located, or the OS refuses to spawn
it, the launch reports an error instead of returning a process handle —
locating failure and spawn failure each produce their fatal diagnostic. -/
theorem c9_launch_error (env : OrasEnv) (args : List String) :
    (env.bundled = none → env.onPath = none →
       run_command_internal env args = Except.error "no oras executable found")
    ∧ (env.spawnOk = false → ∀ h : ProcHandle, run_command_internal env args ≠ Except.ok h)
    ∧ (∀ p, env.bundled = some p → env.spawnOk = false →
       run_command_internal env args
         = Except.error ("an unknown error occured with the oras client: " ++ env.spawnErr)) := by
  refine ⟨?_, ?_, ?_⟩
  · intro h1 h2
    simp [run_command_internal, find_oras, h1, h2]
  · intro hs h
    rcases hb : env.bundled with _ | p
    · rcases ho : env.onPath with _ | q <;>
        simp [run_command_internal, find_oras, hb, ho, hs]
    · simp [run_command_internal, find_oras, hb, hs]
  · intro p hb hs
    simp [run_command_internal, find_oras, hb, hs]

/-- C9 witness: with no executable anywhere the locate error is reported;
with a bundled executable but a refusing OS the spawn error is reported. -/
theorem c9_witness :
    run_command_internal ⟨none, none, true, ""⟩ ["discover"]
        = Except.error "no oras executable found"
    ∧ run_command_internal ⟨some "/usr/libexec/uenv-oras", none, false, "spawn failure"⟩ ["pull"]
        = Except.error ("an unknown error occured with the oras client: " ++ "spawn failure") :=
  ⟨(c9_launch_error ⟨none, none, true, ""⟩ ["discover"]).1 rfl rfl,
   (c9_launch_error ⟨some "/usr/libexec/uenv-oras", none, false, "spawn failure"⟩ ["pull"]).2.2
     "/usr/libexec/uenv-oras" rfl rfl⟩

/-- C10: with both components deselected, a call on an address containing a
colon performs no event at all — nothing launched, removed, written or
rendered — and returns normally. -/
theorem c10_noop (w : World) (addr image_path : String) (target : Target)
    (h : ':' ∈ addr.data) :
    pull_uenv w addr image_path target false false = ([], Outcome.ok) := by
  obtain ⟨⟨b, a⟩, hp⟩ := rsplitLastAux_isSome h
  unfold pull_uenv rsplitColon
  rw [hp]
  rfl

/-- C10 witness: a concrete both-flags-false call is a no-op. -/
theorem c10_witness :
    pull_uenv plain_world "registry/app:v1" "/img" ⟨1048576⟩ false false
      = ([], Outcome.ok) :=
  c10_noop plain_world "registry/app:v1" "/img" ⟨1048576⟩ (by decide)

end Oras
